import Mathlib

/-!
# Verification of the Pi5 OLED status daemon core (`Scripts/status.py`)

Shallow embedding of the render-loop core of the status daemon:

* the network-fact enumeration `get_network_info`,
* the threshold classifier `get_icon_for_value`,
* the rotation scheduler (the `rotation_index` / `loop_counter` update
  of the main loop),
* the per-tick body with its blanket exception boundary,
* the shutdown handler `signal_handler` / `show_offline_screen`.

Python numbers that only get compared and divided are modelled as `ℚ`
(the program never does float-rounding-sensitive arithmetic on them:
it parses a decimal literal, divides by 1000 and compares).  Each
external effect (a `subprocess.check_output` call, the device commit)
is an input to the embedded function: an `Except Unit` value when the
call can raise into the surrounding `try`, a plain result otherwise.
-/

namespace OledStatus

/-- A network fact: a `(kind, value)` pair, e.g. `("hostname", "pi5")`,
`("lan", "192.168.0.2")`. -/
abbrev Fact := String × String

/-- Decidable equality for the `Except` outcomes of the embedded calls. -/
instance exceptDecEq {ε α : Type} [DecidableEq ε] [DecidableEq α] :
    DecidableEq (Except ε α) := fun x y =>
  match x, y with
  | .error a, .error b =>
    if h : a = b then isTrue (by rw [h]) else isFalse (fun hc => h (Except.error.inj hc))
  | .ok a, .ok b =>
    if h : a = b then isTrue (by rw [h]) else isFalse (fun hc => h (Except.ok.inj hc))
  | .error _, .ok _ => isFalse (fun hc => Except.noConfusion hc)
  | .ok _, .error _ => isFalse (fun hc => Except.noConfusion hc)

/-! ## Python string helpers

Faithful models of the `str` operations the script uses on subprocess
output: `str.split()` (split on whitespace runs, dropping empties),
`str.split('\n')`, `str.strip()`, `str.startswith`.  They are written by
structural recursion on the underlying character list so that concrete
counterexamples evaluate inside the kernel. -/

/-- Split a character list at every character satisfying `p`, keeping empty
segments (the behaviour of Python's `str.split(sep)` for a one-character
separator when `p` tests for that separator). -/
def splitOnPred (p : Char → Bool) : List Char → List (List Char)
  | [] => [[]]
  | c :: r =>
    let rest := splitOnPred p r
    if p c then [] :: rest
    else
      match rest with
      | [] => [[c]]
      | h :: t => (c :: h) :: t

/-- Python's `output.split('\n')`. -/
def pySplitNl (s : String) : List String :=
  (splitOnPred (fun c => c = '\n') s.data).map (fun l => String.mk l)

/-- Python's `line.split()`: split on runs of whitespace, no empty parts. -/
def pySplitWs (s : String) : List String :=
  ((splitOnPred Char.isWhitespace s.data).map (fun l => String.mk l)).filter
    (fun p => p ≠ "")

/-- Python's `s.strip()`: drop leading and trailing whitespace. -/
def pyStrip (s : String) : String :=
  String.mk (((s.data.dropWhile Char.isWhitespace).reverse.dropWhile
    Char.isWhitespace).reverse)

/-- `a` is an initial segment of `b` (Python's `b.startswith(a)` on the
character lists). -/
def charsStart : List Char → List Char → Bool
  | [], _ => true
  | _ :: _, [] => false
  | a :: as, b :: bs => a = b && charsStart as bs

/-- Python's `s.startswith(p)`. -/
def pyStarts (s p : String) : Bool :=
  charsStart p.data s.data

/-- Digit list to natural number, most significant first. -/
def digitsToNat (ds : List Char) : Nat :=
  ds.foldl (fun a c => a * 10 + (c.toNat - ('0').toNat)) 0

/-- Leading digit span of a character list. -/
def spanDigits (l : List Char) : List Char × List Char :=
  (l.takeWhile Char.isDigit, l.dropWhile Char.isDigit)

/-- Syntactic part of Python's `float(s)` on an already-`strip()`ed string,
for the decimal literal forms the script can meet
(`[+-] digits [. digits] [e(+-)digits]`); the special forms `inf`/`nan` and
underscored literals are not producible by the `/proc` and `/sys` readers
and are modelled as parse failures.  Returns `none` where `float` raises
`ValueError`, otherwise `(negative, mantissa, fraction digits, exponent)`
denoting `±mantissa / 10^fractionDigits * 10^exponent`. -/
def pyFloatParts (s : String) : Option (Bool × Nat × Nat × Int) :=
  let (neg, l) : Bool × List Char :=
    match s.data with
    | '+' :: r => (false, r)
    | '-' :: r => (true, r)
    | r => (false, r)
  let (ip, r1) := spanDigits l
  let dec : Option ((Nat × Nat) × List Char) :=
    match r1 with
    | '.' :: r2 =>
      let (fp, r3) := spanDigits r2
      if ip.isEmpty ∧ fp.isEmpty then none
      else some ((digitsToNat (ip ++ fp), fp.length), r3)
    | _ => if ip.isEmpty then none else some ((digitsToNat ip, 0), r1)
  match dec with
  | none => none
  | some ((m, f), rest) =>
    match rest with
    | [] => some (neg, m, f, 0)
    | c :: r =>
      if c = 'e' ∨ c = 'E' then
        let (eneg, t) : Bool × List Char :=
          match r with
          | '+' :: t => (false, t)
          | '-' :: t => (true, t)
          | t => (false, t)
        let (ds, r3) := spanDigits t
        if ds.isEmpty ∨ ¬ r3.isEmpty then none
        else some (neg, m, f, if eneg then -(digitsToNat ds : Int) else (digitsToNat ds : Int))
      else none

/-- Numeric value of a parsed float literal. -/
def ratOfParts : Bool × Nat × Nat × Int → ℚ
  | (neg, m, f, e) =>
    (if neg then -(m : ℚ) else (m : ℚ)) / (10 : ℚ) ^ f * (10 : ℚ) ^ e

/-- Model of Python's `float(s)` (see `pyFloatParts`). -/
def pyFloat (s : String) : Option ℚ :=
  (pyFloatParts s).map ratOfParts

/-! ## Network enumeration (`get_network_info`, status.py lines 169-200) -/

/-- The `skip_prefixes` tuple of line 189: interface names starting with one
of these are virtual and excluded. -/
def skipPatterns : List String :=
  ["docker", "br-", "veth", "tailscale", "tun", "tap"]

/-- Facts contributed by one line of the enumeration output
(the body of the `for line in output.split('\n')` loop, lines 181-196):
skip blank lines, split into whitespace-separated parts, require at least
two parts, drop interfaces matching `skipPatterns`, then classify as
`lan` (eth*/en*) or `wifi` (wlan*/wl*); anything else contributes nothing. -/
def processLine (line : String) : List Fact :=
  if line = "" then []
  else
    let parts := pySplitWs line
    if 2 ≤ parts.length then
      let iface := parts.getD 0 ""
      let ip := parts.getD 1 ""
      if skipPatterns.any (fun p => pyStarts iface p) then []
      else if pyStarts iface "eth" || pyStarts iface "en" then [("lan", ip)]
      else if pyStarts iface "wlan" || pyStarts iface "wl" then [("wifi", ip)]
      else []
    else []

/-- `get_network_info()` (lines 169-200).  `enum` is the outcome of the
`subprocess.check_output(ip -4 -o addr show | awk ... )` call: `.ok out`
with the decoded output (before the script's `.strip()`, which is applied
here), or `.error ()` when the call raises.  The hostname fact is appended
first, before the `try`, so it is present in every outcome; the `except:
pass` turns an enumeration failure into an empty interface suffix. -/
def get_network_info (hostname : String) (enum : Except Unit String) : List Fact :=
  ("hostname", hostname) ::
    (match enum with
     | .error _ => []
     | .ok out => (pySplitNl (pyStrip out)).flatMap processLine)

/-! ## Threshold classifier (`get_icon_for_value`, lines 209-213) -/

/-- `get_icon_for_value(base_name, value, threshold)`:
`value >= threshold` selects the `_warn` icon key, otherwise `_normal`. -/
def get_icon_for_value (base : String) (value threshold : ℚ) : String :=
  if threshold ≤ value then base ++ "_warn" else base ++ "_normal"

/-! ## Rotation scheduler state (lines 249-250, 261-263, 359) -/

/-- The two mutable rotation variables of the main loop:
`rotation_index` (here `cursor`) and `loop_counter` (here `counter`). -/
structure LoopState where
  cursor : Nat
  counter : Nat
  deriving DecidableEq, Repr

/-- Lines 261-263: when `loop_counter >= ROTATION_INTERVAL`, advance
`rotation_index` by one modulo the CURRENT fact-list length `n` and zero
the counter.  When `n = 0` the Python `%` raises `ZeroDivisionError`
(there is no `max(1, n)` guard in the code), which aborts the tick with
the state unchanged: modelled as `.error ()`. -/
def rotAdvance (R n : Nat) (s : LoopState) : Except Unit LoopState :=
  if R ≤ s.counter then
    if n = 0 then .error ()
    else .ok ⟨(s.cursor + 1) % n, 0⟩
  else .ok s

/-- Net effect of one otherwise-successful tick on the rotation state:
lines 261-263 (`rotAdvance`) followed by the unconditional
`loop_counter += 1` of line 359 at the end of the tick body. -/
def rotTick (R n : Nat) (s : LoopState) : Except Unit LoopState :=
  (rotAdvance R n s).map (fun s1 => ⟨s1.cursor, s1.counter + 1⟩)

/-- `t` consecutive successful ticks of the rotation state. -/
def rotIterate (R n : Nat) (s : LoopState) : Nat → Except Unit LoopState
  | 0 => .ok s
  | t + 1 => (rotTick R n s).bind (fun s1 => rotIterate R n s1 t)

/-- Lines 266-269: pick the displayed fact.  A non-empty list is indexed at
`rotation_index % len(network_info)`; an empty list falls back to the
synthetic `("hostname", "No network")` fact. -/
def selectFact (facts : List Fact) (idx : Nat) : Fact :=
  if h : facts = [] then ("hostname", "No network")
  else facts.get ⟨idx % facts.length,
    Nat.mod_lt idx (List.length_pos.mpr h)⟩

/-- The rotate-then-select fragment of one tick (lines 261-269), over an
arbitrary fact list: advance the rotation state, then select the fact at
the post-advance cursor.  Errors exactly when `rotAdvance` divides by zero. -/
def displayStage (R : Nat) (facts : List Fact) (s : LoopState) :
    Except Unit (Fact × LoopState) :=
  (rotAdvance R facts.length s).map (fun s1 => (selectFact facts s1.cursor, s1))

/-! ## Metric collection (lines 271-307) -/

/-- Lines 273-276: `float(load_raw)` with `except: load_value = 0.0`. -/
def loadCollect (raw : String) : ℚ :=
  match pyFloat raw with
  | some x => x
  | none => 0

/-- Lines 280-283: `float(temp_raw) / 1000` with `except: temp_value = 0.0`.
`raw` is the stripped output of the thermal-zone pipeline (empty when no
thermal zone exists: the pipeline ends in `head -1` with stderr discarded,
so `check_output` sees exit status 0 and empty output, and the failure
surfaces as a `ValueError` in `float`). -/
def tempCollect (raw : String) : ℚ :=
  match pyFloat raw with
  | some x => x / 1000
  | none => 0

/-! ## The render loop (lines 252-365)

One tick's external effects.  Each `Except Unit String` field is one
`subprocess.check_output` call inside the tick's `try` block: `.ok` carries
the decoded, stripped output, `.error` models the call raising (which the
blanket `except` of line 361 catches).  `commitOk` models whether the
`oled.image(image)` / `oled.show()` pair of lines 356-357 succeeds. -/
structure TickEnv where
  netEnum : Except Unit String
  loadRaw : Except Unit String
  tempRaw : Except Unit String
  memRaw : Except Unit String
  diskRaw : Except Unit String
  commitOk : Bool

/-- Observable outcome of one iteration of the `try` body (lines 253-359).
`state` is the rotation state as left by the tick (including partial
mutation when the tick aborted midway); `errored` records whether an
exception reached the blanket `except`; `displayed`, `loadVal`, `tempVal`
are the values computed before any abort; `committed` records whether the
frame reached the device. -/
structure TickResult where
  state : LoopState
  errored : Bool
  displayed : Option Fact
  loadVal : Option ℚ
  tempVal : Option ℚ
  committed : Bool
  deriving DecidableEq, Repr

/-- The tick body, lines 253-359, in program order: clear the canvas (pure),
`get_network_info` (its own `try` swallows enumeration failure), the rotation
advance (can raise `ZeroDivisionError`), fact selection, load, temperature,
memory and disk collection (each `check_output` can raise; the mem/disk field
parsing sits in its own `try`/`except` and never aborts the tick, and the
parsed mem/disk strings feed only the drawn text), the pure PIL drawing, the
device commit, and finally `loop_counter += 1`.  An exception at any point
stops the body there, keeping all mutations made so far. -/
def tickBody (host : String) (R : Nat) (env : TickEnv) (s : LoopState) : TickResult :=
  let facts := get_network_info host env.netEnum
  match rotAdvance R facts.length s with
  | .error _ => ⟨s, true, none, none, none, false⟩
  | .ok s1 =>
    let fact := selectFact facts s1.cursor
    match env.loadRaw with
    | .error _ => ⟨s1, true, some fact, none, none, false⟩
    | .ok lraw =>
      let load := loadCollect lraw
      match env.tempRaw with
      | .error _ => ⟨s1, true, some fact, some load, none, false⟩
      | .ok traw =>
        let temp := tempCollect traw
        match env.memRaw with
        | .error _ => ⟨s1, true, some fact, some load, some temp, false⟩
        | .ok _ =>
          match env.diskRaw with
          | .error _ => ⟨s1, true, some fact, some load, some temp, false⟩
          | .ok _ =>
            if env.commitOk then
              ⟨⟨s1.cursor, s1.counter + 1⟩, false, some fact, some load, some temp, true⟩
            else ⟨s1, true, some fact, some load, some temp, false⟩

/-- One full loop iteration as the process sees it: the `try` body, whose
failure the `except Exception: pass` of lines 361-363 swallows, followed by
the unconditional `time.sleep(LOOPTIME)` of line 365.  Always yields the
next rotation state: no outcome of the body escapes the loop. -/
def loopStep (host : String) (R : Nat) (env : TickEnv) (s : LoopState) : LoopState :=
  (tickBody host R env s).state

/-- Process status: still inside `while True`, or terminated with an exit
code.  The main loop has no `break`/`return`; only `sys.exit` in the signal
handler produces `exited`. -/
inductive ProcState where
  | running (s : LoopState)
  | exited (code : Nat)
  deriving DecidableEq, Repr

/-- Run `n` iterations of the main loop from a process state, counting how
many times the loop reached the `time.sleep` at the bottom (once per
iteration while running). -/
def procRun (host : String) (R : Nat) (envs : Nat → TickEnv) :
    ProcState → Nat → ProcState × Nat
  | p, 0 => (p, 0)
  | p, n + 1 =>
    match p with
    | .running s =>
      let out := procRun host R envs (.running (loopStep host R (envs n) s)) n
      (out.1, out.2 + 1)
    | .exited c => (.exited c, 0)

/-! ## Shutdown path (lines 215-242) -/

/-- Default-config constant `ICON_WIDTH_LARGE = text_size_large + 2 = 26`
(lines 41 and 158). -/
def ICON_WIDTH_LARGE : Nat := 26

/-- A primitive drawing operation on the shared PIL canvas. -/
inductive DrawOp where
  | clearRect
  | text (x y : Nat) (s : String) (large : Bool)
  | icon (x y : Nat) (key : String) (large : Bool)
  deriving DecidableEq, Repr

/-- Environment of the shutdown path: whether the icon font loaded at
startup (`ICONS_AVAILABLE`) and whether the device accepts the final
`oled.image` / `oled.show` commit. -/
structure ShutdownCtx where
  iconsAvailable : Bool
  deviceOk : Bool

/-- `show_offline_screen()` (lines 215-230): clear the canvas, draw the
hostname at (10, 8) in the small font, then the power icon (when available)
and the word `OFFLINE` in the large font at y = 32, and commit.  The PIL
draws are pure; the raise point is the device commit, so `.ok` carries the
committed frame and `.error` models `oled.image`/`oled.show` raising. -/
def show_offline_screen (host : String) (ctx : ShutdownCtx) :
    Except Unit (List DrawOp) :=
  let ops :=
    [DrawOp.clearRect, DrawOp.text 10 8 host false] ++
      (if ctx.iconsAvailable then
        [DrawOp.icon 10 32 "offline" true,
         DrawOp.text (10 + ICON_WIDTH_LARGE) 32 "OFFLINE" true]
      else [DrawOp.text 10 32 "OFFLINE" true])
  if ctx.deviceOk then .ok ops else .error ()

/-- `signal_handler(sig, frame)` (lines 232-238), registered for both
SIGTERM and SIGINT: `try: show_offline_screen() except: pass`, then
`sys.exit(0)`.  Returns the exit code and the frame that reached the
device (`none` when the farewell commit failed). -/
def signal_handler (host : String) (ctx : ShutdownCtx) :
    Nat × Option (List DrawOp) :=
  match show_offline_screen host ctx with
  | .ok ops => (0, some ops)
  | .error _ => (0, none)

/-! ## Reference machines written from the spec's words -/

/-- Modelled from the spec: the reference rotation state machine of §4.4 —
on each tick, if `ticks_since_rotate ≥ rotation_interval` then
`cursor := (cursor + 1) mod max(1, len(facts))` and the counter is reset
to 0, else the counter is incremented. -/
def rotMachineSpec (R n : Nat) (s : LoopState) : LoopState :=
  if R ≤ s.counter then ⟨(s.cursor + 1) % max 1 n, 0⟩
  else ⟨s.cursor, s.counter + 1⟩

/-- The per-tick rotation machine as the code actually behaves (the spec
machine amended): when the rotation fires on a non-empty list the counter
ends the tick at 1, because line 263 zeroes it and the unconditional
increment of line 359 then runs before the next tick; when the rotation
fires on an empty list the tick aborts (bare `%` by zero, no `max(1, ·)`
guard) leaving both variables unchanged. -/
def rotMachineAmended (R n : Nat) (s : LoopState) : Except Unit LoopState :=
  if R ≤ s.counter then
    if n = 0 then .error ()
    else .ok ⟨(s.cursor + 1) % n, 1⟩
  else .ok ⟨s.cursor, s.counter + 1⟩

/-- One enumeration line parsed to `(interface, address)`: the line must be
non-blank and have at least two whitespace-separated fields
(lines 181-186 of the source). -/
def parseLine (line : String) : Option (String × String) :=
  if line = "" then none
  else
    let parts := pySplitWs line
    if 2 ≤ parts.length then some (parts.getD 0 "", parts.getD 1 "")
    else none

/-- Interface-name classification as the code performs it: `none` for a
virtual name (`skipPatterns`) and for any name that is neither wired-style
(`eth*`/`en*` ↦ `"lan"`) nor wireless-style (`wlan*`/`wl*` ↦ `"wifi"`). -/
def classifyInterface (iface : String) : Option String :=
  if skipPatterns.any (fun p => pyStarts iface p) then none
  else if pyStarts iface "eth" || pyStarts iface "en" then some "lan"
  else if pyStarts iface "wlan" || pyStarts iface "wl" then some "wifi"
  else none

/-- The fact-list shape claimed of `get_network_info`, amended: the hostname
fact first, then, in enumeration order, one fact per parsed line whose
interface survives the virtual-name filter AND has a wired- or
wireless-style name; a surviving interface with any other name (e.g.
`usb0`, `ppp0`) contributes no fact at all. -/
def get_network_info_amended (hostname : String) (enum : Except Unit String) :
    List Fact :=
  ("hostname", hostname) ::
    (match enum with
     | .error _ => []
     | .ok out =>
       (pySplitNl (pyStrip out)).flatMap (fun l =>
         match parseLine l with
         | none => []
         | some (iface, ip) =>
           match classifyInterface iface with
           | none => []
           | some kind => [(kind, ip)]))

/-! ## Helper lemmas -/

/-- When the fact list is non-empty, `selectFact` is list indexing at
`idx % length`, and that index is in bounds. -/
theorem selectFact_get? (facts : List Fact) (h : facts ≠ []) (i : Nat) :
    facts.get? (i % facts.length) = some (selectFact facts i) := by
  unfold selectFact
  rw [dif_neg h]
  exact List.get?_eq_get _

/-- Rotation ticks compose: running `a + b` ticks is running `a` ticks and
then `b` more from the reached state. -/
theorem rotIterate_add (R n : Nat) (s : LoopState) (a b : Nat) :
    rotIterate R n s (a + b) =
      (rotIterate R n s a).bind (fun s1 => rotIterate R n s1 b) := by
  induction a generalizing s with
  | zero => simp [rotIterate, Except.bind]
  | succ a ih =>
    have e : a + 1 + b = (a + b) + 1 := by omega
    rw [e]
    show (rotTick R n s).bind _ = ((rotTick R n s).bind _).bind _
    cases rotTick R n s with
    | error u => rfl
    | ok s1 => exact ih s1

/-- With `rotation_interval = 3` and 4 facts, three ticks from a state with
counter 1 advance the cursor once and return to counter 1. -/
theorem rotIterate_three_from_counter_one (c : Nat) :
    rotIterate 3 4 ⟨c, 1⟩ 3 = .ok ⟨(c + 1) % 4, 1⟩ := by
  simp [rotIterate, rotTick, rotAdvance, Except.bind, Except.map]

/-- The classification if-tree of `processLine`, over arbitrary interface
and address strings, agrees with `classifyInterface`. -/
theorem classify_branch (iface ip : String) :
    (if skipPatterns.any (fun p => pyStarts iface p) then ([] : List Fact)
     else if pyStarts iface "eth" || pyStarts iface "en" then [("lan", ip)]
     else if pyStarts iface "wlan" || pyStarts iface "wl" then [("wifi", ip)]
     else []) =
      (match classifyInterface iface with
       | none => []
       | some kind => [(kind, ip)]) := by
  unfold classifyInterface
  cases h2 : skipPatterns.any (fun p => pyStarts iface p) with
  | true => simp [h2]
  | false =>
    cases h3 : pyStarts iface "eth" || pyStarts iface "en" with
    | true => simp [h2, h3]
    | false =>
      cases h4 : pyStarts iface "wlan" || pyStarts iface "wl" with
      | true => simp [h2, h3, h4]
      | false => simp [h2, h3, h4]

/-- Per-line agreement between the loop body of `get_network_info` and its
parse-then-classify reformulation. -/
theorem processLine_amended (l : String) :
    processLine l =
      (match parseLine l with
       | none => []
       | some (iface, ip) =>
         match classifyInterface iface with
         | none => ([] : List Fact)
         | some kind => [(kind, ip)]) := by
  by_cases h0 : l = ""
  · simp [processLine, parseLine, h0]
  · by_cases h1 : 2 ≤ (pySplitWs l).length
    · simp only [processLine, parseLine, h0, if_false, ite_false, h1, if_true, ite_true]
      exact classify_branch _ _
    · simp [processLine, parseLine, h0, h1]

/-! ## Claims -/

/-- C1 counterexample: the per-tick step of the code does not equal the
spec's reference machine.  At `rotation_interval = 3`, 4 facts and state
`(cursor, counter) = (0, 3)` the rotation fires: the code's tick ends with
counter 1 (reset at line 263, then the unconditional `loop_counter += 1`
of line 359), while the spec machine ends with counter 0; additionally, on
the empty fact list the firing tick aborts with a `ZeroDivisionError`
instead of using `max(1, len(facts))`. -/
theorem rot_step_spec_machine_mismatch :
    rotTick 3 4 ⟨0, 3⟩ = .ok ⟨1, 1⟩ ∧
    rotMachineSpec 3 4 ⟨0, 3⟩ = ⟨1, 0⟩ ∧
    rotTick 3 4 ⟨0, 3⟩ ≠ .ok (rotMachineSpec 3 4 ⟨0, 3⟩) ∧
    rotTick 3 0 ⟨0, 3⟩ = .error () ∧
    rotMachineSpec 3 0 ⟨0, 3⟩ = ⟨0, 0⟩ := by
  refine ⟨by decide, by decide, by decide, by decide, by decide⟩

/-- C1 (amended): the net per-tick effect of the code's rotation scheduler
(lines 261-263 plus the line 359 increment) equals the spec machine amended
in exactly two points: a firing tick ends with counter 1 (not 0), and a
firing tick over the empty fact list aborts with the state unchanged
(there is no `max(1, ·)` guard).  This holds for every starting state,
every interval and every fact-list length. -/
theorem rot_tick_eq_amended_machine (R n : Nat) (s : LoopState) :
    rotTick R n s = rotMachineAmended R n s := by
  unfold rotTick rotAdvance rotMachineAmended
  by_cases h1 : R ≤ s.counter
  · by_cases h2 : n = 0 <;> simp [h1, h2, Except.map]
  · simp [h1, Except.map]

/-- C2 counterexample: starting from `(cursor, counter) = (0, 0)` with
`rotation_interval = 3` and 4 facts, after exactly 3 ticks the cursor is
still 0 (not 1, the counter having only just reached 3), and after 6 ticks
it is 1 (not 2). -/
theorem rotation_cursor_not_one_after_three_ticks :
    rotIterate 3 4 ⟨0, 0⟩ 3 = .ok ⟨0, 3⟩ ∧
    (rotIterate 3 4 ⟨0, 0⟩ 3).map LoopState.cursor ≠ .ok 1 ∧
    rotIterate 3 4 ⟨0, 0⟩ 6 = .ok ⟨1, 3⟩ ∧
    (rotIterate 3 4 ⟨0, 0⟩ 6).map LoopState.cursor ≠ .ok 2 := by
  refine ⟨by decide, by decide, by decide, by decide⟩

/-- C2 (amended): with `rotation_interval = 3`, 4 facts and start
`(0, 0)`, the first advance completes on tick 4 (one tick later than
claimed, because the counter reaches 3 only at the end of tick 3), and the
cursor then advances by one (mod 4) every 3 ticks: after `4 + 3j` ticks the
cursor is `(1 + j) mod 4`. -/
theorem rotation_cursor_every_three_ticks_from_four (j : Nat) :
    rotIterate 3 4 ⟨0, 0⟩ (4 + 3 * j) = .ok ⟨(1 + j) % 4, 1⟩ := by
  induction j with
  | zero => decide
  | succ j ih =>
    have e : 4 + 3 * (j + 1) = (4 + 3 * j) + 3 := by ring
    rw [e, rotIterate_add, ih]
    show rotIterate 3 4 ⟨(1 + j) % 4, 1⟩ 3 = _
    rw [rotIterate_three_from_counter_one]
    have e2 : ((1 + j) % 4 + 1) % 4 = (1 + (j + 1)) % 4 := by omega
    rw [e2]

/-- C3: the threshold classifier returns the `{base}_warn` icon key exactly
when `value ≥ threshold` and the `{base}_normal` key exactly when
`value < threshold`; the boundary `value = threshold` is classified as a
warning. -/
theorem classifier_warn_iff_ge (base : String) (v t : ℚ) :
    (get_icon_for_value base v t = base ++ "_warn" ↔ t ≤ v) ∧
    (get_icon_for_value base v t = base ++ "_normal" ↔ ¬ t ≤ v) ∧
    get_icon_for_value base t t = base ++ "_warn" := by
  have hne : base ++ "_warn" ≠ base ++ "_normal" := by
    intro h
    have hl := congrArg String.length h
    simp only [String.length_append] at hl
    have e1 : "_warn".length = 5 := rfl
    have e2 : "_normal".length = 7 := rfl
    rw [e1, e2] at hl
    omega
  unfold get_icon_for_value
  refine ⟨?_, ?_, by simp⟩
  · by_cases h : t ≤ v <;> simp [h, hne, hne.symm]
  · by_cases h : t ≤ v <;> simp [h, hne, hne.symm]

/-- C4: the blanket failure boundary of the render loop.  For every trace of
per-tick environments (each tick's subprocess calls and device commit may
each fail arbitrarily) and every start state, after `n` iterations the
process is still inside the loop and has reached the `time.sleep` exactly
`n` times: no tick failure terminates the process or escapes the loop.  The
last conjunct shows the boundary is not vacuous: a tick whose load-average
read raises does mark the tick as errored, yet the same step function
carries on. -/
theorem tick_failures_contained (host : String) (R : Nat) (envs : Nat → TickEnv)
    (s : LoopState) (n : Nat) :
    (∃ s2, procRun host R envs (ProcState.running s) n = (ProcState.running s2, n)) ∧
    (tickBody host R ⟨.ok "", .error (), .ok "", .ok "", .ok "", true⟩ s).errored = true := by
  constructor
  · induction n generalizing s with
    | zero => exact ⟨s, rfl⟩
    | succ n ih =>
      obtain ⟨s2, h2⟩ := ih (loopStep host R (envs n) s)
      exact ⟨s2, by simp [procRun, h2]⟩
  · unfold tickBody
    rcases h : rotAdvance R (get_network_info host (Except.ok "")).length s with u | s1 <;>
      simp [h]

/-- C5: on SIGTERM/SIGINT the handler draws the farewell frame — the canvas
is cleared, the hostname line and an `OFFLINE` indicator are drawn — commits
it, and the process exits with code 0; and when the farewell draw/commit
itself raises, the failure is swallowed and the exit code is still 0. -/
theorem shutdown_offline_frame_exit_zero (host : String) (ctx : ShutdownCtx) :
    (signal_handler host ctx).1 = 0 ∧
    (ctx.deviceOk = true →
      ∃ ops, (signal_handler host ctx).2 = some ops ∧
        DrawOp.clearRect ∈ ops ∧
        DrawOp.text 10 8 host false ∈ ops ∧
        ∃ x, DrawOp.text x 32 "OFFLINE" true ∈ ops) ∧
    (ctx.deviceOk = false → (signal_handler host ctx).2 = none) := by
  rcases ctx with ⟨ia, dok⟩
  cases dok with
  | false =>
    refine ⟨rfl, fun h => by simp at h, fun _ => ?_⟩
    cases ia <;> rfl
  | true =>
    refine ⟨?_, fun _ => ?_, fun h => by simp at h⟩
    · cases ia <;> rfl
    · cases ia with
      | false =>
        refine ⟨_, rfl, ?_, ?_, ⟨10, ?_⟩⟩ <;> simp [signal_handler, show_offline_screen]
      | true =>
        refine ⟨_, rfl, ?_, ?_, ⟨10 + ICON_WIDTH_LARGE, ?_⟩⟩ <;>
          simp [signal_handler, show_offline_screen]

/-- C5 witness: at hostname `"pi"`, with icons available, a working device
commits a frame holding the clear, the hostname line and `OFFLINE`, and a
failing device commits nothing; the exit code is 0 either way. -/
theorem shutdown_offline_frame_exit_zero_witness :
    (signal_handler "pi" ⟨true, true⟩).1 = 0 ∧
    (∃ ops, (signal_handler "pi" ⟨true, true⟩).2 = some ops ∧
      DrawOp.clearRect ∈ ops ∧
      DrawOp.text 10 8 "pi" false ∈ ops ∧
      ∃ x, DrawOp.text x 32 "OFFLINE" true ∈ ops) ∧
    (signal_handler "pi" ⟨true, false⟩).2 = none :=
  ⟨(shutdown_offline_frame_exit_zero "pi" ⟨true, true⟩).1,
   (shutdown_offline_frame_exit_zero "pi" ⟨true, true⟩).2.1 rfl,
   (shutdown_offline_frame_exit_zero "pi" ⟨true, false⟩).2.2 rfl⟩

/-- C6 counterexample: on a tick whose fact list is empty and whose counter
has reached the rotation interval, the rotate-then-select fragment raises a
`ZeroDivisionError` (bare `%` by `len(network_info) = 0` at line 262) before
any fact is selected — contradicting "no index-out-of-bounds or mod-by-zero
error occurs" on empty-list ticks. -/
theorem empty_facts_rotating_tick_divzero :
    displayStage 3 ([] : List Fact) ⟨0, 3⟩ = Except.error () := rfl

/-- C6 (amended): on a tick with an empty fact list the displayed fact is
exactly `("hostname", "No network")` *provided the rotation does not fire
that tick* (`counter < rotation_interval`); if it fires, the tick aborts
with a mod-by-zero before the selection.  On a tick with a non-empty list
the displayed fact is `facts[cursor mod len(facts)]` for the post-advance
cursor, an index that is in bounds whatever the current length. -/
theorem display_stage_amended (R : Nat) (facts : List Fact) (s : LoopState) :
    (facts = [] → s.counter < R →
      displayStage R facts s = .ok ((("hostname", "No network") : Fact), s)) ∧
    (facts = [] → R ≤ s.counter → displayStage R facts s = .error ()) ∧
    (facts ≠ [] → ∃ f s1, displayStage R facts s = .ok (f, s1) ∧
      facts.get? (s1.cursor % facts.length) = some f) := by
  refine ⟨?_, ?_, ?_⟩
  · intro he hlt
    subst he
    unfold displayStage rotAdvance
    rw [if_neg (by omega)]
    rfl
  · intro he hge
    subst he
    unfold displayStage rotAdvance
    rw [if_pos hge]
    rfl
  · intro hne
    have hn : facts.length ≠ 0 := by
      simpa using fun h => hne (List.length_eq_zero.mp h)
    unfold displayStage rotAdvance
    by_cases hge : R ≤ s.counter
    · rw [if_pos hge, if_neg hn]
      exact ⟨_, _, rfl, selectFact_get? facts hne _⟩
    · rw [if_neg hge]
      exact ⟨_, _, rfl, selectFact_get? facts hne _⟩

/-- C6 witness: with `rotation_interval = 3` — a quiet empty-list tick shows
the synthetic fact, a firing empty-list tick aborts, and a one-fact tick
indexes in bounds. -/
theorem display_stage_amended_witness :
    displayStage 3 ([] : List Fact) ⟨0, 0⟩ =
      .ok ((("hostname", "No network") : Fact), ⟨0, 0⟩) ∧
    displayStage 3 ([] : List Fact) ⟨0, 5⟩ = .error () ∧
    ∃ f s1, displayStage 3 [(("lan", "10.0.0.1") : Fact)] ⟨0, 0⟩ = .ok (f, s1) ∧
      [(("lan", "10.0.0.1") : Fact)].get? (s1.cursor % [(("lan", "10.0.0.1") : Fact)].length) =
        some f :=
  ⟨(display_stage_amended 3 [] ⟨0, 0⟩).1 rfl (by decide),
   (display_stage_amended 3 [] ⟨0, 5⟩).2.1 rfl (by decide),
   (display_stage_amended 3 [("lan", "10.0.0.1")] ⟨0, 0⟩).2.2 (by simp)⟩

/-- C7 counterexample: when the interface-enumeration subprocess raises,
`get_network_info` does not return an empty list — the hostname fact was
appended before the `try`, inside `get_network_info` itself, so the result
is the one-element hostname list. -/
theorem enum_failure_not_empty :
    get_network_info "pi" (Except.error ()) = [("hostname", "pi")] ∧
    get_network_info "pi" (Except.error ()) ≠ [] := by
  refine ⟨rfl, by decide⟩

/-- C7 (amended): if the interface enumeration fails, `get_network_info`
returns exactly the single hostname fact `[("hostname", hostname)]`; the
hostname fact is added by `get_network_info` itself (before its `try`
block), not separately upstream by its caller. -/
theorem enum_failure_hostname_only (h : String) :
    get_network_info h (Except.error ()) = [("hostname", h)] := rfl

/-- C8 counterexample: an enumerated non-loopback IPv4 interface that
survives the virtual-prefix filter but matches none of the wired/wireless
name patterns — here `usb0` — contributes no fact at all, so the output is
not "one fact per surviving interface": only the hostname fact remains and
the address `10.0.0.5` appears nowhere. -/
theorem unclassified_iface_has_no_fact :
    get_network_info "pi" (Except.ok "usb0 10.0.0.5") = [("hostname", "pi")] ∧
    ¬ ("10.0.0.5" ∈ (get_network_info "pi" (Except.ok "usb0 10.0.0.5")).map Prod.snd) := by
  refine ⟨by decide, by decide⟩

/-- C8 (amended): for every enumeration output the fact list is the
hostname fact first, then, in enumeration order, one fact per parsed line
whose interface both survives the skip-list (`docker`, `br-`, `veth`,
`tailscale`, `tun`, `tap`) and has a wired-style name (`eth*`/`en*`,
kind `"lan"`) or wireless-style name (`wlan*`/`wl*`, kind `"wifi"`), paired
with its address; surviving interfaces with any other name contribute
nothing. -/
theorem network_facts_shape_amended (h : String) (e : Except Unit String) :
    get_network_info h e = get_network_info_amended h e := by
  cases e with
  | error u => rfl
  | ok out =>
    unfold get_network_info get_network_info_amended
    have hfun : processLine = fun l =>
        (match parseLine l with
         | none => []
         | some (iface, ip) =>
           match classifyInterface iface with
           | none => ([] : List Fact)
           | some kind => [(kind, ip)]) := funext processLine_amended
    rw [hfun]

/-- C9: the temperature source divides the parsed raw milli-unit reading by
1000, and whenever the reading does not parse as a number (including the
empty output produced when no thermal zone exists — the shell pipeline ends
in `head -1` with stderr discarded, so the read itself exits 0) the value
defaults to 0.0 without surfacing an error. -/
theorem temp_milli_parse_or_default (raw : String) :
    (pyFloat raw = none → tempCollect raw = 0) ∧
    (∀ x : ℚ, pyFloat raw = some x → tempCollect raw = x / 1000) := by
  constructor
  · intro h
    unfold tempCollect
    rw [h]
  · intro x h
    unfold tempCollect
    rw [h]

/-- C9 witness: a raw reading of 45000 milli-units yields 45 and an empty
raw reading defaults to 0. -/
theorem temp_milli_parse_or_default_witness :
    tempCollect "45000" = 45 ∧ tempCollect "" = 0 := by
  constructor
  · have hp : pyFloat "45000" = some (ratOfParts (false, 45000, 0, 0)) := by
      have : pyFloatParts "45000" = some (false, 45000, 0, 0) := by decide
      simp [pyFloat, this]
    rw [(temp_milli_parse_or_default "45000").2 _ hp]
    norm_num [ratOfParts]
  · exact (temp_milli_parse_or_default "").1 (by decide)

/-- C10: `get_network_info` always returns a non-empty list headed by the
`("hostname", hostname)` fact, whatever the enumeration outcome; hence on
every tick the main loop's fact selection takes the indexing branch
(`facts[cursor mod len]`), and the empty-list `("hostname", "No network")`
fallback of lines 268-269 is unreachable. -/
theorem network_info_nonempty_hostname_head (h : String) (e : Except Unit String)
    (i : Nat) :
    get_network_info h e ≠ [] ∧
    (get_network_info h e).head? = some (("hostname", h) : Fact) ∧
    (get_network_info h e).get? (i % (get_network_info h e).length) =
      some (selectFact (get_network_info h e) i) := by
  have hcons : ∃ rest, get_network_info h e = ("hostname", h) :: rest := by
    cases e with
    | error u => exact ⟨[], rfl⟩
    | ok out => exact ⟨_, rfl⟩
  obtain ⟨rest, hr⟩ := hcons
  refine ⟨by rw [hr]; simp, by rw [hr]; rfl, ?_⟩
  exact selectFact_get? _ (by rw [hr]; simp) i

end OledStatus
